import Mathlib

/-!
Verification development for the SimEngine repository.

The definitions below are a shallow embedding of the Python sources:

* `src/simengine/geometry.py` — `Vector`, `VirtualVector`, `VectorDivider`, `Line`;
* `src/simengine/avatars.py` — `SingleResourcePackAvatar`, `Sprite`, `Animation`,
  `CustomAnimation` (the animation constructor is modelled at the level of the
  Python instance-attribute dictionary, because the claims about it concern
  attribute-lookup failures, including one caused by name mangling; class
  instantiation additionally models ABCMeta's abstract-method guard, fed by
  the `interfaces.py` declarations);
* `src/simengine/pygame_renders.py` — the registered drawing-routine table of
  `PygameSurfaceRender`.

Python numbers (ints and floats) are modelled as rationals.  `math.sqrt` is
modelled by `ratSqrt`, the exact square root on rationals whose square root is
rational; the sources use lengths either in zero tests (where `ratSqrt` agrees
with the source exactly, since `ratSqrt q = 0` iff `q = 0` for `q ≥ 0`) or at
the perfect-square values evaluated by the theorems below, where it is again
exact.  Code of the repository that is not under `src/` (the `tools`,
`renders` and `core` modules) is modelled from the spec where a claim needs
it; each such definition carries a doc comment starting `Modelled from the
spec:`.
-/

namespace SimEngine

/-- Exact square root on the rationals, standing in for `math.sqrt`: precise on
every rational with a rational square root (in particular on the perfect
squares the theorems below evaluate), and satisfying `ratSqrt q = 0 ↔ q = 0`
for the nonnegative arguments produced by sums of squares, which is all that
zero-length tests observe. -/
def ratSqrt (q : ℚ) : ℚ :=
  (Nat.sqrt q.num.toNat : ℚ) / (Nat.sqrt q.den : ℚ)

/-- Python `int(x)` / the integral part computed by `math.modf`: truncation
toward zero. -/
def pyTrunc (q : ℚ) : ℤ :=
  if 0 ≤ q then q.floor else q.ceil

/-- The fractional part returned by `math.modf`. -/
def pyFrac (q : ℚ) : ℚ :=
  q - (pyTrunc q : ℚ)

/-- The `Vector` dataclass of geometry.py: an immutable tuple of numeric
coordinates. -/
structure Vector where
  coordinates : List ℚ
deriving DecidableEq, Repr

namespace Vector

/-- `Vector.length` (geometry.py): `sqrt(sum(coordinate**2 for coordinate in
self.coordinates))`. -/
def length (v : Vector) : ℚ :=
  ratSqrt ((v.coordinates.map (fun coordinate => coordinate ^ 2)).sum)

/-- `Vector.get_normalized_to_measurements` (geometry.py): pad on the right
with the default measurement point when the requested count exceeds the
current one, otherwise truncate to the first `max(n, 0)` coordinates. -/
def get_normalized_to_measurements (v : Vector) (number_of_measurements : ℤ)
    (default_measurement_point : ℚ) : Vector :=
  let measurement_difference : ℤ := number_of_measurements - v.coordinates.length
  if 0 < measurement_difference then
    ⟨v.coordinates ++ List.replicate measurement_difference.toNat default_measurement_point⟩
  else
    ⟨v.coordinates.take number_of_measurements.toNat⟩

/-- `Vector.__add__` (geometry.py): normalize both operands to the larger
measurement count (default point 0), then sum component-wise. -/
def add (v other : Vector) : Vector :=
  let maximum_number_of_measurements : ℕ :=
    max v.coordinates.length other.coordinates.length
  ⟨List.zipWith (fun first second => first + second)
    (v.get_normalized_to_measurements maximum_number_of_measurements 0).coordinates
    (other.get_normalized_to_measurements maximum_number_of_measurements 0).coordinates⟩

/-- `Vector.get_reflected_by_coordinates` (geometry.py): negate the
coordinates whose index lies in the given index set; `none` stands for the
Python default `None`, replaced by `range(len(self.coordinates))`. -/
def get_reflected_by_coordinates (v : Vector) (coordinate_indexes : Option (List ℕ)) : Vector :=
  let idxs := coordinate_indexes.getD (List.range v.coordinates.length)
  ⟨v.coordinates.enum.map
    (fun p => p.2 * (if p.1 ∈ idxs then -1 else 1))⟩

/-- `Vector.__sub__` (geometry.py): `self + other.get_reflected_by_coordinates()`. -/
def sub (v other : Vector) : Vector :=
  v.add (other.get_reflected_by_coordinates none)

/-- `Vector.get_rounded_by` (geometry.py): round every coordinate with the
injected rounding strategy. -/
def get_rounded_by (v : Vector) (rounder : ℚ → ℚ) : Vector :=
  ⟨v.coordinates.map rounder⟩

end Vector

/-- The `VirtualVector` dataclass of geometry.py: a directed segment between
two `Vector` endpoints. -/
structure VirtualVector where
  start_point : Vector
  end_point : Vector
deriving DecidableEq, Repr

/-- `VirtualVector.value` (geometry.py): `self.end_point - self.start_point`. -/
def VirtualVector.value (vv : VirtualVector) : Vector :=
  vv.end_point.sub vv.start_point

/-- Python-level failures the embedded code can produce. -/
inductive PyErr where
  | nameError (name : String)
  | attributeError (name : String)
  | typeError
  | typeErrorAbstract (class_name : String) (abstract_methods : List String)
  | indexError
  | zeroDivisionError
  | unableToDivideVectorIntoPointsError
deriving DecidableEq, Repr

/-- Decidable equality for `Except` results, used to evaluate the embedded
fallible operations on concrete inputs. -/
instance {ε α : Type} [DecidableEq ε] [DecidableEq α] : DecidableEq (Except ε α)
  | .error a, .error b =>
    if h : a = b then .isTrue (by rw [h]) else .isFalse (fun he => h (Except.error.inj he))
  | .error _, .ok _ => .isFalse Except.noConfusion
  | .ok _, .error _ => .isFalse Except.noConfusion
  | .ok a, .ok b =>
    if h : a = b then .isTrue (by rw [h]) else .isFalse (fun he => h (Except.ok.inj he))

/-- Modelled from the spec: the `Report` result value of the `tools` module
(absent from src): a success, or a failure carrying the originating error. -/
inductive Report where
  | success
  | error_report (error : PyErr)
deriving DecidableEq, Repr

/-- Modelled from the spec: the base `Divider.is_possible_to_divide` of the
`tools` module (absent from src), which reports success; subclasses refine it. -/
def Divider.is_possible_to_divide (_data : VirtualVector) : Report :=
  .success

/-- `VectorDivider.is_possible_to_divide` (geometry.py).  On a zero-length
segment the source builds the message
`f"Can't divide vector {vector} into points with length 0"`, but no name
`vector` is bound in that scope (the parameter is `data`), so Python raises
`NameError` while evaluating the f-string, before the error `Report` can be
created.  Otherwise the base check runs. -/
def VectorDivider.is_possible_to_divide (data : VirtualVector) : Except PyErr Report :=
  if data.value.length = 0 then
    .error (.nameError "vector")
  else
    .ok (Divider.is_possible_to_divide data)

/-- The loop of `VectorDivider.__create_points` (geometry.py): starting from
`start_point`, each iteration appends the previous point plus
`vector_to_next_point`; `buildFrom p step k` is the list the loop builds with
`k` iterations, i.e. `[p, p + step, ..., p + k·step]`. -/
def buildFrom (p step : Vector) : ℕ → List Vector
  | 0 => [p]
  | Nat.succ k => p :: buildFrom (p.add step) step k

/-- `VectorDivider.__create_points` (geometry.py): build `int(n)` points
(`range(1, int(n))` iterations after the start point; one point when
`int(n) ≤ 1`), then round every point with the configured strategy. -/
def VectorDivider.create_points (rounder : ℚ → ℚ) (start_point : Vector)
    (number_of_points_to_create : ℚ) (vector_to_next_point : Vector) : List Vector :=
  (buildFrom start_point vector_to_next_point
      ((pyTrunc number_of_points_to_create) - 1).toNat).map
    (fun point => point.get_rounded_by rounder)

/-- `VectorDivider._divide` (geometry.py).  The divisions the source performs
on Python floats appear as explicit `zeroDivisionError` guards. -/
def VectorDivider.divide (rounder : ℚ → ℚ) (distance_between_points : ℚ)
    (vector : VirtualVector) : Except PyErr (List Vector) :=
  if distance_between_points = 0 then .error .zeroDivisionError else
  let factor := rounder (vector.value.length / distance_between_points)
  if factor = 0 then .error .zeroDivisionError else
  let vector_to_next_point : Vector :=
    ⟨vector.value.coordinates.map (fun coordinate => coordinate / factor)⟩
  if vector_to_next_point.length = 0 then .error .zeroDivisionError else
  let number_of_points_to_create :=
    vector.value.length / vector_to_next_point.length + 1
  if number_of_points_to_create ≤ 0 ∨ pyFrac number_of_points_to_create ≠ 0 then
    .error .unableToDivideVectorIntoPointsError
  else
    .ok (VectorDivider.create_points rounder vector.start_point
      number_of_points_to_create vector_to_next_point)

/-- Modelled from the spec: `Divider.__call__` of the `tools` module (absent
from src): run the feasibility check, divide on a success report, raise a
failure report's error. -/
def VectorDivider.call (rounder : ℚ → ℚ) (distance_between_points : ℚ)
    (data : VirtualVector) : Except PyErr (List Vector) :=
  match VectorDivider.is_possible_to_divide data with
  | .error e => .error e
  | .ok .success => VectorDivider.divide rounder distance_between_points data
  | .ok (.error_report e) => .error e

/-- Modelled from the spec: `AccurateNumberRounder` of the `tools` module
(absent from src): rounding to the nearest integer.  The theorems below
evaluate it only at integers, where every tie-breaking convention agrees. -/
def accurate_number_rounder (q : ℚ) : ℚ :=
  ((round q : ℤ) : ℚ)

/-- Modelled from the spec: `ShiftNumberRounder` of the `tools` module (absent
from src): scale up by `10^shift`, delegate to the inner rounder, scale back
down. -/
def shift_number_rounder (inner : ℚ → ℚ) (shift : ℕ) (q : ℚ) : ℚ :=
  inner (q * 10 ^ shift) / 10 ^ shift

/-- The state of a `Line` (geometry.py): the two endpoints and the cached
`__all_available_points`.  The cache type is kept abstract (`α`) so that the
setter-ordering property can be stated for every divider; the model covers
the executions in which the divider call returns normally. -/
structure LineState (α : Type) where
  first_point : Vector
  second_point : Vector
  all_available_points : α

/-- `Line._update_all_available_points` (geometry.py): recompute the cache by
dividing `VirtualVector(self.first_point, self.second_point)` with the line's
divider. -/
def Line.update_all_available_points {α : Type} (divider : Vector → Vector → α)
    (s : LineState α) : LineState α :=
  { s with all_available_points := divider s.first_point s.second_point }

/-- `Line.__init__` (geometry.py): store both endpoints, then compute the
cache from them via `_update_all_available_points`. -/
def Line.init {α : Type} (divider : Vector → Vector → α)
    (first_point second_point : Vector) : LineState α :=
  ⟨first_point, second_point, divider first_point second_point⟩

/-- The `first_point` setter (geometry.py): it calls
`_update_all_available_points()` first and assigns `__first_point` only
afterwards, so the recomputation still sees the pre-mutation endpoint. -/
def Line.set_first_point {α : Type} (divider : Vector → Vector → α)
    (s : LineState α) (new_point : Vector) : LineState α :=
  let s' := Line.update_all_available_points divider s
  { s' with first_point := new_point }

/-- The `second_point` setter (geometry.py), with the same
recompute-then-assign ordering as the `first_point` setter. -/
def Line.set_second_point {α : Type} (divider : Vector → Vector → α)
    (s : LineState α) (new_point : Vector) : LineState α :=
  let s' := Line.update_all_available_points divider s
  { s' with second_point := new_point }

/-- The divider `Line._vector_divider_factory` builds (geometry.py):
`VectorDivider(1, ShiftNumberRounder(AccurateNumberRounder(), 2))`, applied to
`VirtualVector(first_point, second_point)`. -/
def Line.default_divider (a b : Vector) : Except PyErr (List Vector) :=
  VectorDivider.call (shift_number_rounder accurate_number_rounder 2) 1 ⟨a, b⟩

/-- Modelled from the spec: `ResourcePack` of the `renders` module (absent
from src): a drawable resource paired with a render point. -/
structure ResourcePack (α : Type) where
  resource : α
  point : Vector
deriving DecidableEq

/-- The state a `SingleResourcePackAvatar` (avatars.py) acts on: the owning
unit's current position (the `PositionalUnit` itself lives in the `core`
module, absent from src; only its position is read) and the single resource
pack. -/
structure SingleResourcePackAvatarState (α : Type) where
  unit_position : Vector
  main_resource_pack : ResourcePack α

/-- `SingleResourcePackAvatar.update` (avatars.py):
`self._main_resource_pack.point = self.unit.position`. -/
def SingleResourcePackAvatar.update {α : Type}
    (s : SingleResourcePackAvatarState α) : SingleResourcePackAvatarState α :=
  { s with main_resource_pack := { s.main_resource_pack with point := s.unit_position } }

/-- The `Sprite` dataclass of avatars.py. -/
structure Sprite (α : Type) where
  resource : α
  max_stay_ticks : ℤ
  real_stay_ticks : ℤ
deriving DecidableEq

/-- `Sprite.__post_init__` (avatars.py): `real_stay_ticks` starts at
`max_stay_ticks`. -/
def Sprite.mk_post_init {α : Type} (resource : α) (max_stay_ticks : ℤ) : Sprite α :=
  ⟨resource, max_stay_ticks, max_stay_ticks⟩

/-- A value stored in the instance-attribute dictionary of an animation
object (avatars.py). -/
inductive PyAttrVal (α : Type) where
  | unitVal (position : Vector)
  | intVal (n : ℤ)
  | spritesVal (sprites : List (Sprite α))
  | packVal (pack : ResourcePack α)
deriving DecidableEq

/-- The class-attribute dictionary the `Animation` hierarchy contributes
(avatars.py): `_current_sprite_index = 0`.  The bare annotation
`_sprites: tuple[Sprite, ]` creates no attribute, and nothing anywhere
defines the name-mangled `_Animation__current_sprite_index`. -/
def animationClassAttrs (α : Type) : List (String × PyAttrVal α) :=
  [("_current_sprite_index", .intVal 0)]

/-- Python attribute lookup on an animation object: the instance dictionary
first, then the class attributes; a miss raises `AttributeError`. -/
def getattr {α : Type} (instanceAttrs : List (String × PyAttrVal α))
    (name : String) : Except PyErr (PyAttrVal α) :=
  match (instanceAttrs ++ animationClassAttrs α).find? (fun p => p.1 = name) with
  | some p => .ok p.2
  | none => .error (.attributeError name)

/-- Python attribute assignment: the new binding shadows any earlier one. -/
def setAttr {α : Type} (instanceAttrs : List (String × PyAttrVal α))
    (name : String) (val : PyAttrVal α) : List (String × PyAttrVal α) :=
  (name, val) :: instanceAttrs

/-- Python sequence subscription `xs[i]`: negative indices count from the
end, out-of-range indices raise `IndexError`. -/
def pyListGet {β : Type} (xs : List β) (i : ℤ) : Except PyErr β :=
  let j := if i < 0 then i + xs.length else i
  if h : 0 ≤ j ∧ j.toNat < xs.length then
    .ok (xs.get ⟨j.toNat, h.2⟩)
  else
    .error .indexError

/-- `Avatar.__init__` (avatars.py): `self._unit = unit`.  Only the unit's
position is ever read, so the stored value carries just that. -/
def Avatar.init {α : Type} (unit_position : Vector) : List (String × PyAttrVal α) :=
  [("_unit", .unitVal unit_position)]

/-- `Animation._update_main_resource_pack` (avatars.py):
`self._main_resource_pack = ResourcePack(self._sprites[self.__current_sprite_index].resource, self.unit.position)`.
Python evaluates `self._sprites` first, then the subscript — whose attribute
name the compiler mangles to `_Animation__current_sprite_index`.  The final
match arm is unreachable for the values this class hierarchy ever stores
under those names. -/
def Animation.update_main_resource_pack {α : Type} (unit_position : Vector)
    (instanceAttrs : List (String × PyAttrVal α)) :
    Except PyErr (List (String × PyAttrVal α)) :=
  match getattr instanceAttrs "_sprites" with
  | .error e => .error e
  | .ok sv =>
    match getattr instanceAttrs "_Animation__current_sprite_index" with
    | .error e => .error e
    | .ok iv =>
      match sv, iv with
      | .spritesVal sprites, .intVal index =>
        match pyListGet sprites index with
        | .error e => .error e
        | .ok sprite =>
          .ok (setAttr instanceAttrs "_main_resource_pack"
            (.packVal ⟨sprite.resource, unit_position⟩))
      | _, _ => .error .typeError

/-- `Animation.__init__` (avatars.py): `super().__init__(unit)` (which stores
the unit) followed by `self._update_main_resource_pack()`. -/
def Animation.init {α : Type} (unit_position : Vector) :
    Except PyErr (List (String × PyAttrVal α)) :=
  Animation.update_main_resource_pack unit_position (Avatar.init unit_position)

/-- `CustomAnimation.__init__` (avatars.py): `super().__init__(unit)` runs
first; `self._sprites = tuple(sprites)` is assigned only afterwards.
`CustomEndlessAnimation` inherits this same constructor.  This is the
`__init__` chain only; instantiating the class runs it just after the ABCMeta
guard of `CustomAnimation.call` below has passed. -/
def CustomAnimation.init {α : Type} (unit_position : Vector)
    (sprites : List (Sprite α)) : Except PyErr (List (String × PyAttrVal α)) :=
  match (Animation.init unit_position : Except PyErr (List (String × PyAttrVal α))) with
  | .error e => .error e
  | .ok attrs => .ok (setAttr attrs "_sprites" (.spritesVal sprites))

/-- The abstract method names the interface module contributes
(interfaces.py): `IUpdatable.update` and the abstract property
`IAvatar.render_resource`; the syntactically malformed nameless second
declaration in `IUpdatable` is omitted, as spec §9 directs. -/
def interfaceAbstractMethodNames : List String :=
  ["update", "render_resource"]

/-- The attribute names defined by the classes on the `CustomAnimation`
method-resolution order (avatars.py): `Avatar` defines `__init__` and the
`unit` property; `SingleResourcePackAvatar` defines `render_resource_packs`
and `update`; `Animation` defines `__init__`, `update`, `is_finished`,
`_active_sprite`, `_update_main_resource_pack`, `_handle_finish` and the
class attribute `_current_sprite_index`; `CustomAnimation` defines
`__init__`.  None of them defines `render_resource`. -/
def customAnimationDefinedNames : List String :=
  ["__init__", "unit",
   "render_resource_packs", "update",
   "is_finished", "_active_sprite", "_update_main_resource_pack", "_handle_finish",
   "_current_sprite_index"]

/-- ABCMeta's surviving-abstract-methods computation for `CustomAnimation`
(and for `CustomEndlessAnimation`, whose MRO adds only `EndlessAnimation`'s
`_handle_finish` override): the interface-declared abstract names that no
class on the MRO overrides. -/
def customAnimationAbstractMethods : List String :=
  interfaceAbstractMethodNames.filter (fun name => name ∉ customAnimationDefinedNames)

/-- Calling the `CustomAnimation` class, i.e. `CustomAnimation(unit, sprites)`
in Python: the interfaces inherit from `ABC`, so ABCMeta first rejects the
instantiation with `TypeError` while any abstract method survives on the
class; only otherwise does the `__init__` chain run. -/
def CustomAnimation.call {α : Type} (unit_position : Vector)
    (sprites : List (Sprite α)) : Except PyErr (List (String × PyAttrVal α)) :=
  if customAnimationAbstractMethods = [] then
    CustomAnimation.init unit_position sprites
  else
    .error (.typeErrorAbstract "CustomAnimation" customAnimationAbstractMethods)

/-- The runtime type of a resource reaching the renderer: the raw host
surface, the graphics primitives of `pygame_resources`, or any other type. -/
inductive PyResourceType where
  | surface
  | polygon
  | line
  | lines
  | circle
  | rectangle
  | ellipse
  | arc
  | other (type_name : String)
deriving DecidableEq, Repr

/-- The drawing-routine registrations of `PygameSurfaceRender`
(pygame_renders.py): the eight `Render.resource_handler` declarations, in
source order, keyed by the declared `supported_resource_type`. -/
def pygameSurfaceRenderHandlers : List (PyResourceType × String) :=
  [(.surface, "_handle_pygame_surface"),
   (.polygon, "_handle_pygame_polygon"),
   (.line, "_handle_pygame_line"),
   (.lines, "_handle_pygame_lines"),
   (.circle, "_handle_pygame_circle"),
   (.rectangle, "_handle_pygame_rect"),
   (.ellipse, "_handle_pygame_ellipse"),
   (.arc, "_handle_pygame_arc")]

/-- The failure of the rendering abstraction when no routine is registered. -/
inductive RenderErr where
  | notFound
deriving DecidableEq, Repr

/-- Modelled from the spec: the per-pack dispatch of `Render` (the `renders`
module, absent from src): look up the routine registered for the resource's
exact runtime type; fail with a NotFound-style error when none is
registered. -/
def Render.findHandlerFor (t : PyResourceType) : Except RenderErr String :=
  match pygameSurfaceRenderHandlers.find? (fun p => p.1 = t) with
  | some p => .ok p.2
  | none => .error .notFound

/-- The graphics-resource primitive types of §4.6 of the spec
(`pygame_resources`, absent from src). -/
def graphicsPrimitiveTypes : List PyResourceType :=
  [.polygon, .line, .lines, .circle, .rectangle, .ellipse, .arc]

/-- The expected point list for dividing the segment from `(0,0)` to `(10,0)`
with `distance_between_points = 1`. -/
def pts10 : List Vector :=
  [⟨[0, 0]⟩, ⟨[1, 0]⟩, ⟨[2, 0]⟩, ⟨[3, 0]⟩, ⟨[4, 0]⟩, ⟨[5, 0]⟩,
   ⟨[6, 0]⟩, ⟨[7, 0]⟩, ⟨[8, 0]⟩, ⟨[9, 0]⟩, ⟨[10, 0]⟩]

end SimEngine

namespace SimEngine

theorem getD_replicate_self (k i : ℕ) (d : ℚ) : (List.replicate k d).getD i d = d := by
  induction k generalizing i with
  | zero => simp [List.getD]
  | succ k ih =>
    cases i with
    | zero => rfl
    | succ i => simp only [List.replicate, List.getD_cons_succ]; exact ih i

theorem getD_append_replicate (xs : List ℚ) (k i : ℕ) (d : ℚ) :
    (xs ++ List.replicate k d).getD i d = xs.getD i d := by
  induction xs generalizing i with
  | nil => simp only [List.nil_append]; exact getD_replicate_self k i d
  | cons x xs ih =>
    cases i with
    | zero => rfl
    | succ i => simp only [List.cons_append, List.getD_cons_succ]; exact ih i

theorem getD_zipWith_add (xs ys : List ℚ) (h : xs.length = ys.length) (i : ℕ) :
    (List.zipWith (fun first second => first + second) xs ys).getD i 0 =
      xs.getD i 0 + ys.getD i 0 := by
  induction xs generalizing ys i with
  | nil =>
    cases ys with
    | nil => simp [List.getD]
    | cons y ys => simp at h
  | cons x xs ih =>
    cases ys with
    | nil => simp at h
    | cons y ys =>
      cases i with
      | zero => rfl
      | succ i =>
        simp only [List.zipWith_cons_cons, List.getD_cons_succ]
        exact ih ys (by simpa using h) i

theorem normalized_coords_eq_append (xs : List ℚ) (n : ℕ) (h : xs.length ≤ n) :
    (Vector.get_normalized_to_measurements ⟨xs⟩ (n : ℤ) 0).coordinates =
      xs ++ List.replicate (n - xs.length) 0 := by
  unfold Vector.get_normalized_to_measurements
  dsimp only
  by_cases hlt : xs.length < n
  · rw [if_pos (by omega)]
    have ht : ((n : ℤ) - (xs.length : ℤ)).toNat = n - xs.length := by omega
    rw [ht]
  · have hn : xs.length = n := by omega
    rw [if_neg (by omega)]
    subst hn
    simp

theorem add_coordinates (a b : Vector) :
    (a.add b).coordinates =
      List.zipWith (fun first second => first + second)
        (a.coordinates ++
          List.replicate (max a.coordinates.length b.coordinates.length - a.coordinates.length) 0)
        (b.coordinates ++
          List.replicate (max a.coordinates.length b.coordinates.length - b.coordinates.length) 0) := by
  unfold Vector.add
  dsimp only
  rw [normalized_coords_eq_append a.coordinates _ (Nat.le_max_left _ _),
    normalized_coords_eq_append b.coordinates _ (Nat.le_max_right _ _)]

theorem add_getD (a b : Vector) (i : ℕ) :
    (a.add b).coordinates.getD i 0 = a.coordinates.getD i 0 + b.coordinates.getD i 0 := by
  rw [add_coordinates,
    getD_zipWith_add _ _ (by simp only [List.length_append, List.length_replicate]; omega) i,
    getD_append_replicate, getD_append_replicate]

theorem add_length (a b : Vector) :
    (a.add b).coordinates.length = max a.coordinates.length b.coordinates.length := by
  rw [add_coordinates]
  simp only [List.length_zipWith, List.length_append, List.length_replicate]
  omega

theorem list_eq_of_getD (xs ys : List ℚ) (hl : xs.length = ys.length)
    (h : ∀ i, xs.getD i 0 = ys.getD i 0) : xs = ys := by
  induction xs generalizing ys with
  | nil => cases ys with
    | nil => rfl
    | cons y ys => simp at hl
  | cons x xs ih =>
    cases ys with
    | nil => simp at hl
    | cons y ys =>
      have h0 : x = y := h 0
      have ht : xs = ys := ih ys (by simpa using hl) (fun i => h (i + 1))
      rw [h0, ht]

theorem vector_eq_of_coordinates {a b : Vector} (h : a.coordinates = b.coordinates) : a = b := by
  cases a
  cases b
  cases h
  rfl

theorem enumFrom_reflect_all (xs : List ℚ) (k : ℕ) (idxs : List ℕ)
    (h : ∀ j, k ≤ j → j < k + xs.length → j ∈ idxs) :
    (List.enumFrom k xs).map (fun p => p.2 * (if p.1 ∈ idxs then -1 else 1)) =
      xs.map (fun c => -c) := by
  induction xs generalizing k with
  | nil => rfl
  | cons x xs ih =>
    have hk : k ∈ idxs := h k le_rfl (by simp)
    simp only [List.enumFrom, List.map]
    rw [if_pos hk]
    rw [ih (k + 1) (fun j hj1 hj2 => h j (by omega)
      (by simp only [List.length_cons]; omega))]
    norm_num

theorem reflect_none_coords (b : Vector) :
    (b.get_reflected_by_coordinates none).coordinates = b.coordinates.map (fun c => -c) := by
  unfold Vector.get_reflected_by_coordinates
  dsimp only [Option.getD]
  exact enumFrom_reflect_all b.coordinates 0 (List.range b.coordinates.length)
    (fun j hj1 hj2 => by simp only [List.mem_range]; omega)

theorem zipWith_add_map_neg (xs : List ℚ) :
    List.zipWith (fun first second => first + second) xs (xs.map (fun c => -c)) =
      List.replicate xs.length 0 := by
  induction xs with
  | nil => rfl
  | cons x xs ih => simp [List.replicate, ih]

theorem sub_self_coords (s : Vector) :
    (s.sub s).coordinates = List.replicate s.coordinates.length 0 := by
  show (s.add (s.get_reflected_by_coordinates none)).coordinates = _
  rw [add_coordinates, reflect_none_coords]
  simp only [List.length_map, Nat.max_self, Nat.sub_self, List.replicate, List.append_nil]
  exact zipWith_add_map_neg s.coordinates

theorem length_sub_self (s : Vector) : (s.sub s).length = 0 := by
  unfold Vector.length
  rw [sub_self_coords]
  have hsum : ((List.replicate s.coordinates.length (0:ℚ)).map (fun c => c ^ 2)).sum = 0 := by
    simp
  rw [hsum]
  with_unfolding_all decide

end SimEngine

namespace SimEngine

/-- Claim C1: the spec's finite-animation progression (two sprites of max-stay
1 and 2 ticks: sprite 0 still active after the first update, `is_finished`
true after three updates, `AnimationAlreadyFinishedError` on the fourth)
cannot occur on the code: already constructing that `CustomAnimation` raises
`AttributeError`, because `Animation.__init__` runs
`_update_main_resource_pack` before `CustomAnimation.__init__` assigns
`_sprites` (and the mangled `_Animation__current_sprite_index` is never
defined), so no update can ever run. -/
theorem claim_C1 :
    CustomAnimation.init ⟨[0, 0]⟩
        [Sprite.mk_post_init "sprite0" 1, Sprite.mk_post_init "sprite1" 2]
      = .error (.attributeError "_sprites") := rfl

/-- Counterexample to claim C2 as stated: constructing the concrete
two-sprite `CustomAnimation` does not raise `AttributeError` — ABCMeta
rejects the instantiation with `TypeError` (the abstract property
`render_resource` of interfaces.py is never overridden anywhere on the
`Avatar → SingleResourcePackAvatar → Animation → CustomAnimation` chain), so
`__init__` never runs and in particular the `AttributeError` on `_sprites`
is never reached. -/
theorem claim_C2_counterexample :
    CustomAnimation.call ⟨[0, 0]⟩
        [Sprite.mk_post_init "sprite0" 1, Sprite.mk_post_init "sprite1" 2]
      = .error (.typeErrorAbstract "CustomAnimation" ["render_resource"])
    ∧ CustomAnimation.call ⟨[0, 0]⟩
        [Sprite.mk_post_init "sprite0" 1, Sprite.mk_post_init "sprite1" 2]
      ≠ .error (.attributeError "_sprites") :=
  ⟨rfl, by with_unfolding_all decide⟩

/-- Claim C2, amended: for every unit and every sprite sequence, constructing
a `CustomAnimation` (hence a `CustomEndlessAnimation`) fails before any
update can run — but with `TypeError`, not `AttributeError`: ABCMeta rejects
the instantiation because the abstract property `render_resource` is never
overridden in the Animation hierarchy, so `__init__` never runs.  The
`AttributeError` defects the original claim describes remain latent in the
`__init__` chain: were it entered, it would read `_sprites` before
`CustomAnimation.__init__` assigns it; and even on an object with both
`_sprites` and `_current_sprite_index` set, `_update_main_resource_pack`
would still fail on the name-mangled `_Animation__current_sprite_index` that
no code ever defines. -/
theorem claim_C2 :
    (∀ (α : Type) (unit_position : Vector) (sprites : List (Sprite α)),
        CustomAnimation.call unit_position sprites
          = .error (.typeErrorAbstract "CustomAnimation" ["render_resource"]))
    ∧ (∀ (α : Type) (unit_position : Vector) (sprites : List (Sprite α)),
        CustomAnimation.init unit_position sprites = .error (.attributeError "_sprites"))
    ∧ ∀ (α : Type) (unit_position : Vector) (sprites : List (Sprite α)) (idx : ℤ),
        Animation.update_main_resource_pack unit_position
            (setAttr (setAttr (Avatar.init unit_position) "_sprites" (.spritesVal sprites))
              "_current_sprite_index" (.intVal idx))
          = .error (.attributeError "_Animation__current_sprite_index") :=
  ⟨fun _ _ _ => rfl, fun _ _ _ => rfl, fun _ _ _ _ => rfl⟩

/-- Claim C3: on a `VirtualVector` whose start point equals its end point the
feasibility check does fail, but not with a failure `Report` carrying the
`UnableToDivideVectorIntoPointsError`: the error branch's message f-string
references the unbound name `vector`, so the check raises `NameError` — shown
at the concrete zero-length input and for every start point, configured
rounder and distance. -/
theorem claim_C3 :
    VectorDivider.is_possible_to_divide ⟨⟨[0, 0]⟩, ⟨[0, 0]⟩⟩ = .error (.nameError "vector")
    ∧ ∀ (start_point : Vector) (rounder : ℚ → ℚ) (distance_between_points : ℚ),
        VectorDivider.call rounder distance_between_points ⟨start_point, start_point⟩
          = .error (.nameError "vector") := by
  constructor
  · with_unfolding_all decide
  · intro s rounder d
    have h0 : (VirtualVector.mk s s).value.length = 0 := length_sub_self s
    have h : VectorDivider.is_possible_to_divide ⟨s, s⟩ = .error (.nameError "vector") := by
      unfold VectorDivider.is_possible_to_divide
      rw [if_pos h0]
    unfold VectorDivider.call
    rw [h]

/-- Claim C4: both endpoint setters of `Line` recompute the cached
`all_available_points` before assigning the new endpoint, so after a setter
the cache equals the discretization of the pre-mutation endpoints, for every
divider; with the default divider, mutating the second point of the line from
`(0,0)` to `(2,0)` into `(3,0)` leaves the cache at the old discretization,
different from the discretization of the new endpoints. -/
theorem claim_C4 :
    (∀ (α : Type) (divider : Vector → Vector → α) (s : LineState α) (new_point : Vector),
        (Line.set_first_point divider s new_point).all_available_points
            = divider s.first_point s.second_point
        ∧ (Line.set_first_point divider s new_point).first_point = new_point
        ∧ (Line.set_first_point divider s new_point).second_point = s.second_point
        ∧ (Line.set_second_point divider s new_point).all_available_points
            = divider s.first_point s.second_point
        ∧ (Line.set_second_point divider s new_point).second_point = new_point
        ∧ (Line.set_second_point divider s new_point).first_point = s.first_point)
    ∧ (Line.set_second_point Line.default_divider
          (Line.init Line.default_divider ⟨[0, 0]⟩ ⟨[2, 0]⟩) ⟨[3, 0]⟩).all_available_points
        = Line.default_divider ⟨[0, 0]⟩ ⟨[2, 0]⟩
    ∧ (Line.set_second_point Line.default_divider
          (Line.init Line.default_divider ⟨[0, 0]⟩ ⟨[2, 0]⟩) ⟨[3, 0]⟩).all_available_points
        ≠ Line.default_divider ⟨[0, 0]⟩ ⟨[3, 0]⟩ :=
  ⟨fun _ _ _ _ => ⟨rfl, rfl, rfl, rfl, rfl, rfl⟩, rfl, by with_unfolding_all decide⟩

/-- Claim C5: `Vector` addition pads the shorter operand on the right with 0
up to the longer operand's length and sums component-wise: the result's
length is the maximum of the operand lengths, every component is the sum of
the operands' components (0 beyond an operand's length), and in particular
`(1,2) + (1,2,3) = (2,4,3)`. -/
theorem claim_C5 :
    (∀ a b : Vector,
        (a.add b).coordinates.length = max a.coordinates.length b.coordinates.length
        ∧ ∀ i : ℕ, (a.add b).coordinates.getD i 0
            = a.coordinates.getD i 0 + b.coordinates.getD i 0)
    ∧ Vector.add ⟨[1, 2]⟩ ⟨[1, 2, 3]⟩ = ⟨[2, 4, 3]⟩ :=
  ⟨fun a b => ⟨add_length a b, add_getD a b⟩, by with_unfolding_all decide⟩

/-- Claim C6: dividing the segment from `(0,0)` to `(10,0)` (displacement
length 10) with `distance_between_points = 1` and a rounder without rounding
loss yields exactly the 11 points `(0,0) … (10,0)`: the first equals the
start point and each subsequent point is the previous one plus the per-step
vector `(1,0)`. -/
theorem claim_C6 (rounder : ℚ → ℚ) (hr : ∀ x, rounder x = x) :
    VectorDivider.call rounder 1 ⟨⟨[0, 0]⟩, ⟨[10, 0]⟩⟩ = .ok pts10
    ∧ pts10.length = 11
    ∧ pts10.getD 0 ⟨[]⟩ = ⟨[0, 0]⟩
    ∧ ∀ i : Fin 10, pts10.getD (i.1 + 1) ⟨[]⟩ = (pts10.getD i.1 ⟨[]⟩).add ⟨[1, 0]⟩ := by
  have h : rounder = fun x => x := funext hr
  subst h
  with_unfolding_all decide

/-- Witness for claim C6: the identity rounder satisfies the no-rounding-loss
hypothesis, and the division then produces the 11 points. -/
theorem claim_C6_witness :
    (∀ x : ℚ, (fun y : ℚ => y) x = x)
    ∧ (VectorDivider.call (fun y : ℚ => y) 1 ⟨⟨[0, 0]⟩, ⟨[10, 0]⟩⟩ = .ok pts10
       ∧ pts10.length = 11
       ∧ pts10.getD 0 ⟨[]⟩ = ⟨[0, 0]⟩
       ∧ ∀ i : Fin 10, pts10.getD (i.1 + 1) ⟨[]⟩ = (pts10.getD i.1 ⟨[]⟩).add ⟨[1, 0]⟩) :=
  ⟨fun _ => rfl, claim_C6 (fun y => y) (fun _ => rfl)⟩

/-- Claim C7: subtraction is addition of the fully reflected second operand,
where reflecting with no selected index subset negates every coordinate; in
particular `(5,5) - (2,3) = (3,2)`. -/
theorem claim_C7 :
    (∀ a b : Vector, a.sub b = a.add (b.get_reflected_by_coordinates none))
    ∧ (∀ b : Vector, (b.get_reflected_by_coordinates none).coordinates
        = b.coordinates.map (fun c => -c))
    ∧ Vector.sub ⟨[5, 5]⟩ ⟨[2, 3]⟩ = ⟨[3, 2]⟩ :=
  ⟨fun _ _ => rfl, reflect_none_coords, by with_unfolding_all decide⟩

/-- Claim C8: every `SingleResourcePackAvatar` update assigns the owning
unit's current position to the main resource pack's point (leaving the
resource and the unit position unchanged), so after each update the pack's
point equals the unit's position. -/
theorem claim_C8 :
    ∀ (α : Type) (s : SingleResourcePackAvatarState α),
      (SingleResourcePackAvatar.update s).main_resource_pack.point = s.unit_position
      ∧ (SingleResourcePackAvatar.update s).main_resource_pack.resource
          = s.main_resource_pack.resource
      ∧ (SingleResourcePackAvatar.update s).unit_position = s.unit_position :=
  fun _ _ => ⟨rfl, rfl, rfl⟩

/-- Claim C9: `PygameSurfaceRender` registers exactly one drawing routine for
every primitive type of the graphics-resource set plus the raw host surface,
and dispatching a resource pack whose resource type has no registered routine
fails with the NotFound-style error. -/
theorem claim_C9 :
    (∀ t ∈ PyResourceType.surface :: graphicsPrimitiveTypes,
        (pygameSurfaceRenderHandlers.filter (fun p => p.1 = t)).length = 1)
    ∧ (∀ type_name : String, Render.findHandlerFor (.other type_name) = .error .notFound) := by
  constructor
  · with_unfolding_all decide
  · intro type_name
    rfl

/-- Witness for claim C9: the Polygon primitive has exactly one registered
routine, and a type outside the set is dispatched to NotFound. -/
theorem claim_C9_witness :
    (pygameSurfaceRenderHandlers.filter (fun p => p.1 = PyResourceType.polygon)).length = 1
    ∧ Render.findHandlerFor (.other "Sprite") = .error .notFound :=
  ⟨claim_C9.1 PyResourceType.polygon (by simp [graphicsPrimitiveTypes]),
   claim_C9.2 "Sprite"⟩

/-- Claim C10: `Vector` addition is commutative — both operands are padded
with 0 to the common maximum dimensionality before the component-wise sum,
and component addition commutes. -/
theorem claim_C10 : ∀ a b : Vector, a.add b = b.add a := by
  intro a b
  apply vector_eq_of_coordinates
  apply list_eq_of_getD
  · rw [add_length, add_length, Nat.max_comm]
  · intro i
    rw [add_getD, add_getD, add_comm]

end SimEngine
